import Mathlib

/-!
Shallow embedding of the sentiment-bot core (score aggregation, category
classification, response composition) across the repository's historical
variants.  Scores are modelled as rationals; the per-text "comparative"
value comes from the external sentiment library and is therefore a
parameter.  Threshold tables are lists of (upper bound, label) pairs where
a bound is -∞, a finite rational, or +∞, mirroring the JavaScript values
-Infinity / numeric literal / Infinity; the JavaScript comparison
`score <= threshold` on a finite score is false against -Infinity and true
against Infinity.
-/

namespace SentimentBot

/-- An upper bound in a category threshold table: `-Infinity`, a finite
numeric literal, or `Infinity`, as they appear in the source tables. -/
inductive Bound where
  | negInf : Bound
  | fin : ℚ → Bound
  | posInf : Bound
deriving DecidableEq

/-- The JavaScript test `score <= threshold` for a finite `score` against a
table bound. -/
def Bound.leq (x : ℚ) : Bound → Bool
  | Bound.negInf => false
  | Bound.fin q => decide (x ≤ q)
  | Bound.posInf => true

/-- Strict order on bounds, used to state that a table's bounds are
strictly increasing. -/
def Bound.ltb : Bound → Bound → Bool
  | Bound.negInf, Bound.negInf => false
  | Bound.negInf, _ => true
  | _, Bound.negInf => false
  | Bound.fin a, Bound.fin b => decide (a < b)
  | Bound.fin _, Bound.posInf => true
  | Bound.posInf, _ => false

/-- A list of bounds is strictly increasing. -/
def strictlyIncreasing : List Bound → Bool
  | [] => true
  | [_] => true
  | a :: b :: rest => Bound.ltb a b && strictlyIncreasing (b :: rest)

/-- `Array.prototype.find` over a threshold table with the predicate
`([threshold]) => score <= threshold`, returning the matched entry's label:
the first entry whose upper bound is ≥ the score. -/
def findCategory (score : ℚ) : List (Bound × String) → Option String
  | [] => none
  | e :: rest => if Bound.leq score e.1 then some e.2 else findCategory score rest

/-- `SENTIMENT_CATEGORIES.find(([threshold]) => score <= threshold)?.[1] ?? 'neutral'`:
the table-driven classifier shared by the table-based variants. -/
def analyzeSentiment (table : List (Bound × String)) (score : ℚ) : String :=
  (findCategory score table).getD ("neutral")

/-- `SENTIMENT_CATEGORIES` of the first src/index.ts variant:
[-3, -0.25, -0.1, 0.1, 0.25] with five labels. -/
def SENTIMENT_CATEGORIES_index1 : List (Bound × String) :=
  [(Bound.fin (-3), "very mean"),
   (Bound.fin (-1/4), "mean"),
   (Bound.fin (-1/10), "neutral"),
   (Bound.fin (1/10), "nice"),
   (Bound.fin (1/4), "very nice")]

/-- `SENTIMENT_CATEGORIES` of the second src/index.ts variant:
[-Infinity, -0.25, -0.1, 0.1, 0.25] with five labels. -/
def SENTIMENT_CATEGORIES_index2 : List (Bound × String) :=
  [(Bound.negInf, "very mean"),
   (Bound.fin (-1/4), "mean"),
   (Bound.fin (-1/10), "neutral"),
   (Bound.fin (1/10), "nice"),
   (Bound.fin (1/4), "very nice")]

/-- `SENTIMENT_CATEGORIES` of src/unnamed/part_000:
[-0.5, 0, 0.1, 0.5, Infinity] with five labels. -/
def SENTIMENT_CATEGORIES_part0 : List (Bound × String) :=
  [(Bound.fin (-1/2), "very mean"),
   (Bound.fin 0, "mean"),
   (Bound.fin (1/10), "neutral"),
   (Bound.fin (1/2), "nice"),
   (Bound.posInf, "very nice")]

/-- `SENTIMENT_CATEGORIES` of the first src/unnamed/part_001 variant:
[-3, -1.5, -0.5, -0.1, 0.1, 0.5, 1.5, 3, Infinity] with nine labels. -/
def SENTIMENT_CATEGORIES_part1 : List (Bound × String) :=
  [(Bound.fin (-3), "extremely negative"),
   (Bound.fin (-3/2), "very negative"),
   (Bound.fin (-1/2), "negative"),
   (Bound.fin (-1/10), "slightly negative"),
   (Bound.fin (1/10), "neutral"),
   (Bound.fin (1/2), "slightly positive"),
   (Bound.fin (3/2), "positive"),
   (Bound.fin 3, "very positive"),
   (Bound.posInf, "extremely positive")]

/-- `analyzeSentiment` of the second src/unnamed/part_001 variant: the
branch-based nine-way classifier (`score === 0` first, then negative and
positive ladders). -/
def analyzeSentimentBranch (score : ℚ) : String :=
  if score = 0 then "neutral"
  else if score < 0 then
    (if score ≤ -3 then "extremely negative"
     else if score ≤ -3/2 then "very negative"
     else if score ≤ -1/2 then "negative"
     else "slightly negative")
  else
    (if score ≤ 1/2 then "slightly positive"
     else if score ≤ 3/2 then "positive"
     else if score ≤ 3 then "very positive"
     else "extremely positive")

/-- `analyzeSentimentScore`: for a non-empty list, map each text to its
comparative value, sum with `reduce((sum, s) => sum + s, 0)` and divide by
the number of texts; for an empty list return 0.  The comparative value
per text comes from the external `sentiment` library and is a parameter. -/
def analyzeSentimentScore (comparative : String → ℚ) (texts : List String) : ℚ :=
  if texts.length > 0 then
    ((texts.map comparative).foldl (fun sum score => sum + score) 0) / texts.length
  else 0


/-- JavaScript `Number.prototype.toFixed(2)` on a rational: the sign is
taken from the value; the magnitude is rounded to the nearest multiple of
1/100 (ties to the larger numerator, per ECMA-262) and rendered with two
decimal digits. -/
def toFixed2 (x : ℚ) : String :=
  (if x < 0 then "-" else "") ++
    (let m : ℕ := (Int.floor (100 * |x| + 1/2)).toNat
     toString (m / 100) ++ "." ++ (if m % 100 < 10 then "0" else "") ++ toString (m % 100))

/-- The regex replacement `.replace(/\.?0+$/, '')` used by `formatScore`:
remove the longest trailing run of zeros together with a decimal point
standing immediately before it (the leftmost match of the anchored
pattern is the longest such suffix). -/
def stripTrailingZeros (s : String) : String :=
  let r := s.data.reverse
  let r2 := r.dropWhile (fun c => c = '0')
  let r3 := if r2.length < r.length ∧ r2.head? = some ('.') then r2.tail else r2
  String.mk r3.reverse

/-- `formatScore` of the first src/unnamed/part_001 variant:
`(score >= 0 ? '+' : '') + score.toFixed(2).replace(/\.?0+$/, '')`. -/
def formatScore (score : ℚ) : String :=
  (if score ≥ 0 then "+" else "") ++ stripTrailingZeros (toFixed2 score)

/-- `getSentimentEmoji` of the second src/unnamed/part_001 variant. -/
def getSentimentEmoji (score : ℚ) : String :=
  if score = 0 then "😐"
  else if score < 0 then
    (if score ≤ -3 then "🤬"
     else if score ≤ -3/2 then "😡"
     else if score ≤ -1/2 then "😠"
     else "😕")
  else
    (if score ≤ 1/10 then "🙂"
     else if score ≤ 1/2 then "😌"
     else if score ≤ 3/2 then "😊"
     else if score ≤ 3 then "😄"
     else "🥰")

def neutral : List String :=
  ["Your vibe is pretty neutral right now.",
   "You\x27re keeping it balanced in your conversations.",
   "Not leaning positive or negative - just keeping it real.",
   "You\x27re in the neutral zone with your messaging.",
   "Your posts are giving very middle-of-the-road energy.",
   "You\x27re neither a downer nor a hype machine right now.",
   "Your messages are about as neutral as they come."]

def slightlyNegative : List String :=
  ["There\x27s a bit of an edge to your recent posts.",
   "You seem slightly annoyed in your conversations.",
   "Your tone\x27s got a tiny bite to it lately.",
   "You\x27re giving off some minor irritation vibes.",
   "Your messages have a subtle hint of frustration.",
   "You\x27re keeping it real, maybe a little too real.",
   "There\x27s a dash of salt in your recent comments.",
   "You\x27re not exactly feeling the warm fuzzies right now."]

def moderatelyNegative : List String :=
  ["You\x27re not holding back the negativity lately.",
   "Your posts are giving off some serious side-eye.",
   "You seem pretty fed up in your recent messages.",
   "You\x27re definitely in a mood based on these posts.",
   "Your patience seems to be wearing thin.",
   "You\x27re not exactly spreading the joy right now.",
   "Your messages suggest you\x27re having a rough time.",
   "The frustration is coming through loud and clear."]

def veryNegative : List String :=
  ["Your posts are radiating some serious negativity.",
   "You\x27re not mincing words about how you feel. And it\x27s not great.",
   "You\x27re in a proper funk based on these messages.",
   "Your messages are giving major \x27stay away\x27 energy.",
   "You\x27re really letting your dark side show in these posts.",
   "Your conversations are dripping with hostility lately.",
   "You\x27re throwing some serious shade in your messaging.",
   "These posts suggest you\x27re having a genuinely awful time."]

def extremelyNegative : List String :=
  ["Your posts are nuclear-level negative right now.",
   "Damn, who hurt you? Your messages are brutal.",
   "You\x27re on a rampage with these comments.",
   "Your posts are absolutely scorching the earth.",
   "These messages could make a therapist wince.",
   "You\x27re not just burning bridges, you\x27re obliterating them.",
   "Your negativity meter is completely maxed out.",
   "You might want to step away from the keyboard for a bit."]

def slightlyPositive : List String :=
  ["There\x27s a hint of positivity in your posts.",
   "You\x27re giving off subtle good vibes.",
   "Your messages have a slight upbeat tone to them.",
   "You seem to be in a decent mood in your posts.",
   "There\x27s a gentle optimism in your messages.",
   "You\x27re leaning slightly toward the bright side.",
   "Your posts have a minor positive spin to them.",
   "You\x27re keeping things just a little sunny in your messages."]

def moderatelyPositive : List String :=
  ["You\x27ve got some genuinely good energy in your posts.",
   "Your messages are giving off solid positive vibes.",
   "You seem to be in a pretty good headspace right now.",
   "Your positivity is definitely coming through.",
   "You\x27re bringing some welcome warmth to conversations.",
   "Your posts have a refreshingly upbeat quality.",
   "You\x27re spreading good vibes without overdoing it.",
   "There\x27s an authentic brightness to your messages."]

def veryPositive : List String :=
  ["Your posts are seriously uplifting to read.",
   "You\x27re bringing major positive energy to these conversations.",
   "Your messages could brighten anyone\x27s day.",
   "You\x27re not just positive, you\x27re inspiringly so.",
   "Your posts radiate genuine enthusiasm and warmth.",
   "You\x27re on a real positivity streak in these messages.",
   "Your good vibes game is exceptionally strong right now.",
   "You\x27re like a breath of fresh air in these conversations."]

def extremelyPositive : List String :=
  ["Your posts are off-the-charts positive right now.",
   "You\x27re basically a walking serotonin boost with these messages.",
   "Your positivity is almost suspiciously high. And I\x27m here for it.",
   "You must be having the best day ever based on these posts.",
   "Your optimism levels are through the roof.",
   "You\x27re not just spreading positivity, you\x27re weaponizing it.",
   "Your posts are making unicorns and rainbows seem cynical.",
   "Whatever you\x27re on, I want some. Your positivity is unreal."]

def extremelyNegativeSuggestions : List String :=
  ["Whoa there - you might want to take a breath before sending that.",
   "Consider if this level of negativity is really getting your point across.",
   "Your posts are pretty harsh - maybe sleep on it before sending?",
   "Your frustration is clear, but a calmer approach might be more effective.",
   "Try focusing on solutions rather than just the problems.",
   "Your posts might burn bridges - is that what you really want?",
   "Consider if your tone matches how you want to be perceived online.",
   "Your critiques might be valid, but the delivery could use some work.",
   "Think about whether your posts will help or just escalate things.",
   "Maybe try reframing your concerns in a more constructive way."]

def veryNegativeSuggestions : List String :=
  ["Your posts come across strongly negative - maybe soften it a bit?",
   "Consider adding some constructive suggestions along with your criticisms.",
   "This level of negativity might overshadow your actual points.",
   "Try acknowledging some positives before diving into the negatives.",
   "Your posts might be taken more seriously with a more measured tone.",
   "Consider if your posts will help resolve the situation or inflame it.",
   "You\x27ve made your dissatisfaction clear - now try offering solutions.",
   "Your posts might come across harsher than you intend.",
   "Try focusing on specific issues rather than general negativity.",
   "A more balanced approach might make people more receptive to your feedback."]

def moderatelyNegativeSuggestions : List String :=
  ["Your posts lean negative - try balancing it with some positives.",
   "Consider whether your tone matches your intentions here.",
   "A little more optimism might make your posts more persuasive.",
   "Try framing your concerns as constructive feedback.",
   "Your skepticism comes through - maybe pair it with some encouragement?",
   "Consider adding some solutions along with pointing out problems.",
   "Your critical eye is valuable, but so is acknowledging what\x27s working.",
   "Try sandwiching your criticism between positive observations.",
   "A slightly more upbeat tone might help get your message across.",
   "Consider if your posts might be interpreted as more negative than intended."]

def slightlyNegativeSuggestions : List String :=
  ["Your posts have a slight edge to it - a bit more positivity could help.",
   "Consider adding some encouraging words to balance out the tone.",
   "Try acknowledging the positives before getting into concerns.",
   "Your posts come across as a bit dismissive - maybe soften it?",
   "A slightly warmer tone might make your posts more effective.",
   "Consider whether this slight negativity is intentional or accidental.",
   "Try phrasing your concerns as questions instead of statements.",
   "Your posts have a subtle negative undertone - is that what you intended?",
   "A touch more enthusiasm could change how your posts are received.",
   "Consider if a more positive framing would better serve your purpose."]

def neutralSuggestions : List String :=
  ["Your posts are pretty neutral - try adding some personality.",
   "Show a bit more of your authentic feelings next time.",
   "Your tone is balanced, but don\x27t be afraid to express more emotion.",
   "Consider adding more colour to your posts to stand out.",
   "Your neutrality is fine, but people connect more with emotional content.",
   "Try injecting some enthusiasm into your next post.",
   "Your posts are safe, but sometimes taking a stance connects better.",
   "Being neutral is fine, but showing passion can be more engaging.",
   "Consider whether your balanced approach is actually what you intend.",
   "A bit more expressiveness might make your posts more memorable."]

def slightlyPositiveSuggestions : List String :=
  ["Keep up that positive energy in your posts! A bit more could really shine.",
   "Your posts have a nice optimistic feel - let it show even more!",
   "Love seeing those hints of positivity. Why not express it more openly?",
   "You seem to be in a good mood - share more of that with your followers!",
   "You\x27re spreading some good vibes. Don\x27t be shy about it!",
   "That subtle positivity in your posts is great. Let it out more!",
   "Nice to see you keeping things upbeat. Your followers probably appreciate it.",
   "You\x27re bringing some light positivity - feel free to brighten it up more!",
   "Those positive posts are a good look on you. Keep that energy going!",
   "Your posts have a nice warm tone. Your followers might enjoy even more of that."]

def moderatelyPositiveSuggestions : List String :=
  ["You\x27re spreading good vibes! Maybe share what specifically made you feel this way?",
   "Love your upbeat posts! Adding details about why could inspire others even more.",
   "Your optimism is contagious! Tell us more about what sparked this positivity.",
   "You\x27re clearly feeling great! Share the story behind that enthusiasm.",
   "Such a positive outlook! What specific moments led to these good feelings?",
   "Your cheerful posts brighten the feed! What exactly has you so pumped?",
   "You\x27re radiating happiness! Let\x27s hear the details that got you there.",
   "Loving this positive energy! Paint us a picture of what inspired it.",
   "You\x27re in such a great headspace! Share those little wins with us.",
   "Your posts are a ray of sunshine! Tell us more about these happy moments."]

def veryPositiveSuggestions : List String :=
  ["Your posts are super positive! Maybe share what specifically got you so excited?",
   "Loving your enthusiastic posts! Adding some details would make them even better.",
   "Your feed is full of great vibes! Tell us more about what made your day.",
   "You\x27re spreading so much positivity! Share the story behind all this joy.",
   "Such uplifting posts! What awesome things happened to inspire this?",
   "Your posts are radiating happiness! Let us know what got you feeling this way.",
   "You\x27re in an amazing mood! Give us the highlights that led to this.",
   "Your positivity is infectious! Share those moments that made you smile.",
   "You\x27re really lighting up the timeline! What\x27s got you so pumped?",
   "Love seeing you this happy! Tell everyone what sparked all this good energy."]

def extremelyPositiveSuggestions : List String :=
  ["Your incredible enthusiasm is contagious! Share what amazing things led to this joy!",
   "Wow, your positivity is through the roof! Tell us the story behind this excitement!",
   "Your posts are absolutely glowing with happiness! What wonderful things happened?",
   "Such amazing energy in your posts! Share those fantastic moments with everyone!",
   "Your joy is lighting up the timeline! Tell us what has you feeling so fantastic!",
   "Love seeing this boundless optimism! What incredible things got you here?",
   "Your posts are pure sunshine today! Share those amazing experiences!",
   "This enthusiasm is infectious! Let everyone know what sparked such joy!",
   "Your positivity is absolutely radiant! Tell us about these wonderful moments!",
   "Such incredible positive energy! Share the amazing story behind these good vibes!"]

/-- `getRandomArrayItem = (array) => array[Math.floor(Math.random() * array.length)]`:
the injected random draw is modelled as a natural number reduced modulo the
array length, so an in-range draw `r < array.length` selects `array[r]`. -/
def getRandomArrayItem (r : ℕ) (array : List String) : String :=
  array.getD (r % array.length) ("")

/-- `getSentimentMessage` of the second src/unnamed/part_001 variant,
with the random draw made explicit. -/
def getSentimentMessage (r : ℕ) (score : ℚ) : String :=
  if score = 0 then getRandomArrayItem r neutral
  else if score < 0 then
    (if score ≤ -3 then getRandomArrayItem r extremelyNegative
     else if score ≤ -3/2 then getRandomArrayItem r veryNegative
     else if score ≤ -1/2 then getRandomArrayItem r moderatelyNegative
     else getRandomArrayItem r slightlyNegative)
  else
    (if score ≥ 3 then getRandomArrayItem r extremelyPositive
     else if score ≥ 3/2 then getRandomArrayItem r veryPositive
     else if score ≥ 1/2 then getRandomArrayItem r moderatelyPositive
     else getRandomArrayItem r slightlyPositive)

/-- `getSentimentSuggestion` of the second src/unnamed/part_001 variant:
for score 0 it returns the whole `neutralSuggestions` array; otherwise a
single randomly drawn element of the matching pool.  The untyped
JavaScript return value (string or array of strings) is a sum type. -/
def getSentimentSuggestion (r : ℕ) (score : ℚ) : String ⊕ List String :=
  if score = 0 then Sum.inr neutralSuggestions
  else if score < 0 then
    (if score ≤ -3 then Sum.inl (getRandomArrayItem r extremelyNegativeSuggestions)
     else if score ≤ -3/2 then Sum.inl (getRandomArrayItem r veryNegativeSuggestions)
     else if score ≤ -1/2 then Sum.inl (getRandomArrayItem r moderatelyNegativeSuggestions)
     else Sum.inl (getRandomArrayItem r slightlyNegativeSuggestions))
  else
    (if score ≥ 3 then Sum.inl (getRandomArrayItem r extremelyPositiveSuggestions)
     else if score ≥ 3/2 then Sum.inl (getRandomArrayItem r veryPositiveSuggestions)
     else if score ≥ 1/2 then Sum.inl (getRandomArrayItem r moderatelyPositiveSuggestions)
     else Sum.inl (getRandomArrayItem r slightlyPositiveSuggestions))

/-- The pool `getSentimentSuggestion` draws from for a nonzero score,
following the branch structure of the source. -/
def suggestionPool (score : ℚ) : List String :=
  if score < 0 then
    (if score ≤ -3 then extremelyNegativeSuggestions
     else if score ≤ -3/2 then veryNegativeSuggestions
     else if score ≤ -1/2 then moderatelyNegativeSuggestions
     else slightlyNegativeSuggestions)
  else
    (if score ≥ 3 then extremelyPositiveSuggestions
     else if score ≥ 3/2 then veryPositiveSuggestions
     else if score ≥ 1/2 then moderatelyPositiveSuggestions
     else slightlyPositiveSuggestions)

/-- JavaScript string interpolation of the suggestion value: a string is
inserted as is, an array via `Array.prototype.toString`, i.e. the elements
joined with commas. -/
def interpolate : String ⊕ List String → String
  | Sum.inl s => s
  | Sum.inr l => String.intercalate (",") l

/-- The template literal of the second src/unnamed/part_001 composer:
`\x7b emoji \x7d Hey @\x7b username \x7d! \x7b message \x7d Your sentiment score is
\x7b formattedScore \x7d (\x7b sentiment \x7d). \x7b suggestion \x7d`. -/
def responseTemplate (emoji username message formattedScore sentiment suggestion : String) :
    String :=
  emoji ++ " Hey @" ++ username ++ "! " ++ message ++ " Your sentiment score is " ++
    formattedScore ++ " (" ++ sentiment ++ "). " ++ suggestion

/-- `generateSentimentResponse` of the second src/unnamed/part_001 variant,
with the two independent random draws (message, suggestion) explicit.
The score is rendered with `score.toFixed(2)` and no further formatting. -/
def generateSentimentResponse (rm rs : ℕ) (username : String) (score : ℚ) : String :=
  responseTemplate (getSentimentEmoji score) username (getSentimentMessage rm score)
    (toFixed2 score) (analyzeSentimentBranch score) (interpolate (getSentimentSuggestion rs score))

end SentimentBot

namespace SentimentBot

/-! Helper lemmas shared by the claim theorems. -/

lemma getRandomArrayItem_mem (r : ℕ) (l : List String) (h : l ≠ []) :
    getRandomArrayItem r l ∈ l := by
  have hl : 0 < l.length := List.length_pos.mpr h
  have hr : r % l.length < l.length := Nat.mod_lt _ hl
  rw [getRandomArrayItem, List.getD_eq_getElem?_getD, List.getElem?_eq_getElem hr]
  simp [List.getElem_mem hr]

lemma foldl_add_eq_add_sum (l : List ℚ) (a : ℚ) :
    l.foldl (fun sum score => sum + score) a = a + l.sum := by
  induction l generalizing a with
  | nil => simp
  | cons x xs ih => simp [ih, add_assoc]

lemma findCategory_mem {q : ℚ} : ∀ {table : List (Bound × String)} {s : String},
    findCategory q table = some s → ∃ e ∈ table, e.2 = s := by
  intro table
  induction table with
  | nil => intro s h; simp [findCategory] at h
  | cons e rest ih =>
    intro s h
    rw [findCategory] at h
    by_cases hc : Bound.leq q e.1 = true
    · rw [if_pos hc] at h
      exact ⟨e, List.mem_cons_self e rest, Option.some_inj.mp h⟩
    · rw [if_neg hc] at h
      obtain ⟨e2, he2, hs⟩ := ih h
      exact ⟨e2, List.mem_cons_of_mem e he2, hs⟩

lemma toFixed2_of_floor (x : ℚ) (m : ℕ) (hm : Int.floor (100 * |x| + 1/2) = (m : ℤ)) :
    toFixed2 x = (if x < 0 then "-" else "") ++
      (toString (m / 100) ++ "." ++ (if m % 100 < 10 then "0" else "") ++ toString (m % 100)) := by
  rw [toFixed2, hm]
  simp

lemma getSentimentSuggestion_of_ne_zero (r : ℕ) {q : ℚ} (hq : ¬ q = 0) :
    getSentimentSuggestion r q = Sum.inl (getRandomArrayItem r (suggestionPool q)) := by
  rw [getSentimentSuggestion, if_neg hq, suggestionPool]
  split_ifs <;> rfl

lemma suggestionPool_ne_nil (q : ℚ) : suggestionPool q ≠ [] := by
  rw [suggestionPool]
  split_ifs <;>
    simp [extremelyNegativeSuggestions, veryNegativeSuggestions, moderatelyNegativeSuggestions,
      slightlyNegativeSuggestions, slightlyPositiveSuggestions, moderatelyPositiveSuggestions,
      veryPositiveSuggestions, extremelyPositiveSuggestions]

end SentimentBot

namespace SentimentBot

/-- C1: false as stated — the first src/index.ts table ends with the finite
bound 0.25, not an unbounded entry, and at score 1 the ascending scan finds
no entry, so the fallback branch of classify is taken. -/
theorem C1_counterexample :
    SENTIMENT_CATEGORIES_index1.getLast?.map Prod.fst ≠ some Bound.posInf ∧
    findCategory 1 SENTIMENT_CATEGORIES_index1 = none ∧
    analyzeSentiment SENTIMENT_CATEGORIES_index1 1 = "neutral" := by
  refine ⟨by simp [SENTIMENT_CATEGORIES_index1], ?_, ?_⟩ <;>
    norm_num [analyzeSentiment, findCategory, Bound.leq, SENTIMENT_CATEGORIES_index1]

/-- C1 (amended): every category threshold table in the code is strictly
increasing by upper bound; the part_000 and part_001 tables end with an
unbounded (+∞) entry and their scan always finds an entry, but both
src/index.ts tables end at the finite bound 0.25 and every score above
0.25 takes the fallback branch. -/
theorem C1_tables :
    strictlyIncreasing (SENTIMENT_CATEGORIES_index1.map Prod.fst) = true ∧
    strictlyIncreasing (SENTIMENT_CATEGORIES_index2.map Prod.fst) = true ∧
    strictlyIncreasing (SENTIMENT_CATEGORIES_part0.map Prod.fst) = true ∧
    strictlyIncreasing (SENTIMENT_CATEGORIES_part1.map Prod.fst) = true ∧
    SENTIMENT_CATEGORIES_part0.getLast?.map Prod.fst = some Bound.posInf ∧
    SENTIMENT_CATEGORIES_part1.getLast?.map Prod.fst = some Bound.posInf ∧
    (∀ q : ℚ, (findCategory q SENTIMENT_CATEGORIES_part0).isSome = true ∧
      (findCategory q SENTIMENT_CATEGORIES_part1).isSome = true) ∧
    (∀ q : ℚ, 1/4 < q → findCategory q SENTIMENT_CATEGORIES_index1 = none ∧
      findCategory q SENTIMENT_CATEGORIES_index2 = none) := by
  refine ⟨?_, ?_, ?_, ?_, ?_, ?_, ?_, ?_⟩
  · norm_num [strictlyIncreasing, Bound.ltb, SENTIMENT_CATEGORIES_index1]
  · norm_num [strictlyIncreasing, Bound.ltb, SENTIMENT_CATEGORIES_index2]
  · norm_num [strictlyIncreasing, Bound.ltb, SENTIMENT_CATEGORIES_part0]
  · norm_num [strictlyIncreasing, Bound.ltb, SENTIMENT_CATEGORIES_part1]
  · simp [SENTIMENT_CATEGORIES_part0]
  · simp [SENTIMENT_CATEGORIES_part1]
  · intro q
    constructor <;>
      (simp only [findCategory, Bound.leq, SENTIMENT_CATEGORIES_part0,
        SENTIMENT_CATEGORIES_part1, decide_eq_true_eq]
       split_ifs <;> simp)
  · intro q hq
    constructor <;>
      (simp only [findCategory, Bound.leq, SENTIMENT_CATEGORIES_index1,
        SENTIMENT_CATEGORIES_index2, decide_eq_true_eq]
       split_ifs <;> simp_all <;> linarith)

/-- C1 witness: the part_000 scan finds an entry at 3/10, and at score 1
the first src/index.ts table's scan is exhausted. -/
theorem C1_witness :
    (findCategory (3/10) SENTIMENT_CATEGORIES_part0).isSome = true ∧
    findCategory 1 SENTIMENT_CATEGORIES_index1 = none :=
  ⟨(C1_tables.2.2.2.2.2.2.1 (3/10)).1, (C1_tables.2.2.2.2.2.2.2 1 (by norm_num)).1⟩

/-- C2: false as stated — in the branch-based nine-way classifier a score
of exactly 0.1 classifies as "slightly positive", not "neutral". -/
theorem C2_counterexample :
    analyzeSentimentBranch (1/10) = "slightly positive" ∧
    analyzeSentimentBranch (1/10) ≠ "neutral" := by
  have h : analyzeSentimentBranch (1/10) = "slightly positive" := by
    norm_num [analyzeSentimentBranch]
  exact ⟨h, by rw [h]; decide⟩

/-- C2 (amended): in every table-based classifier variant a score exactly
equal to a finite threshold classifies into that threshold's own (lower)
label, and the same holds for every threshold of the branch-based nine-way
classifier; a score of exactly 0.1 yields "neutral" in the table-based
nine-way classifier, but "slightly positive" in the branch-based one,
whose neutral band is the single point 0. -/
theorem C2_boundaries :
    analyzeSentiment SENTIMENT_CATEGORIES_index1 (-3) = "very mean" ∧
    analyzeSentiment SENTIMENT_CATEGORIES_index1 (-(1/4)) = "mean" ∧
    analyzeSentiment SENTIMENT_CATEGORIES_index1 (-(1/10)) = "neutral" ∧
    analyzeSentiment SENTIMENT_CATEGORIES_index1 (1/10) = "nice" ∧
    analyzeSentiment SENTIMENT_CATEGORIES_index1 (1/4) = "very nice" ∧
    analyzeSentiment SENTIMENT_CATEGORIES_index2 (-(1/4)) = "mean" ∧
    analyzeSentiment SENTIMENT_CATEGORIES_index2 (-(1/10)) = "neutral" ∧
    analyzeSentiment SENTIMENT_CATEGORIES_index2 (1/10) = "nice" ∧
    analyzeSentiment SENTIMENT_CATEGORIES_index2 (1/4) = "very nice" ∧
    analyzeSentiment SENTIMENT_CATEGORIES_part0 (-(1/2)) = "very mean" ∧
    analyzeSentiment SENTIMENT_CATEGORIES_part0 0 = "mean" ∧
    analyzeSentiment SENTIMENT_CATEGORIES_part0 (1/10) = "neutral" ∧
    analyzeSentiment SENTIMENT_CATEGORIES_part0 (1/2) = "nice" ∧
    analyzeSentiment SENTIMENT_CATEGORIES_part1 (-3) = "extremely negative" ∧
    analyzeSentiment SENTIMENT_CATEGORIES_part1 (-(3/2)) = "very negative" ∧
    analyzeSentiment SENTIMENT_CATEGORIES_part1 (-(1/2)) = "negative" ∧
    analyzeSentiment SENTIMENT_CATEGORIES_part1 (-(1/10)) = "slightly negative" ∧
    analyzeSentiment SENTIMENT_CATEGORIES_part1 (1/10) = "neutral" ∧
    analyzeSentiment SENTIMENT_CATEGORIES_part1 (1/2) = "slightly positive" ∧
    analyzeSentiment SENTIMENT_CATEGORIES_part1 (3/2) = "positive" ∧
    analyzeSentiment SENTIMENT_CATEGORIES_part1 3 = "very positive" ∧
    analyzeSentimentBranch (-3) = "extremely negative" ∧
    analyzeSentimentBranch (-(3/2)) = "very negative" ∧
    analyzeSentimentBranch (-(1/2)) = "negative" ∧
    analyzeSentimentBranch 0 = "neutral" ∧
    analyzeSentimentBranch (1/2) = "slightly positive" ∧
    analyzeSentimentBranch (3/2) = "positive" ∧
    analyzeSentimentBranch 3 = "very positive" ∧
    analyzeSentimentBranch (1/10) = "slightly positive" := by
  refine ⟨?_, ?_, ?_, ?_, ?_, ?_, ?_, ?_, ?_, ?_, ?_, ?_, ?_, ?_, ?_, ?_, ?_, ?_, ?_, ?_, ?_,
    ?_, ?_, ?_, ?_, ?_, ?_, ?_, ?_⟩ <;>
    norm_num [analyzeSentiment, findCategory, Bound.leq, analyzeSentimentBranch,
      SENTIMENT_CATEGORIES_index1, SENTIMENT_CATEGORIES_index2, SENTIMENT_CATEGORIES_part0,
      SENTIMENT_CATEGORIES_part1]

/-- C3: false as stated — classifying a score of exactly 0 with the first
src/index.ts table returns "nice", not the neutral label. -/
theorem C3_counterexample :
    analyzeSentiment SENTIMENT_CATEGORIES_index1 0 = "nice" ∧
    analyzeSentiment SENTIMENT_CATEGORIES_index1 0 ≠ "neutral" := by
  have h : analyzeSentiment SENTIMENT_CATEGORIES_index1 0 = "nice" := by
    norm_num [analyzeSentiment, findCategory, Bound.leq, SENTIMENT_CATEGORIES_index1]
  exact ⟨h, by rw [h]; decide⟩

/-- C3 (amended): classifying a score of exactly 0 returns "neutral" in
both nine-way part_001 classifiers, but returns "nice" in both
src/index.ts tables and "mean" in the part_000 table. -/
theorem C3_zero :
    analyzeSentiment SENTIMENT_CATEGORIES_part1 0 = "neutral" ∧
    analyzeSentimentBranch 0 = "neutral" ∧
    analyzeSentiment SENTIMENT_CATEGORIES_index1 0 = "nice" ∧
    analyzeSentiment SENTIMENT_CATEGORIES_index2 0 = "nice" ∧
    analyzeSentiment SENTIMENT_CATEGORIES_part0 0 = "mean" := by
  refine ⟨?_, ?_, ?_, ?_, ?_⟩ <;>
    norm_num [analyzeSentiment, findCategory, Bound.leq, analyzeSentimentBranch,
      SENTIMENT_CATEGORIES_index1, SENTIMENT_CATEGORIES_index2, SENTIMENT_CATEGORIES_part0,
      SENTIMENT_CATEGORIES_part1]

/-- C9: in the second src/index.ts table (first bound -Infinity, last bound
0.25), no finite score classifies as "very mean"; every score ≤ -0.25
yields "mean", and every score above 0.25 reaches the fallback and yields
"neutral". -/
theorem C9_index2 : ∀ q : ℚ,
    analyzeSentiment SENTIMENT_CATEGORIES_index2 q ≠ "very mean" ∧
    (q ≤ -(1/4) → analyzeSentiment SENTIMENT_CATEGORIES_index2 q = "mean") ∧
    (1/4 < q → analyzeSentiment SENTIMENT_CATEGORIES_index2 q = "neutral") := by
  intro q
  refine ⟨?_, ?_, ?_⟩
  · simp only [analyzeSentiment, findCategory, Bound.leq, SENTIMENT_CATEGORIES_index2,
      decide_eq_true_eq]
    split_ifs <;> simp_all
  · intro hq
    simp only [analyzeSentiment, findCategory, Bound.leq, SENTIMENT_CATEGORIES_index2,
      decide_eq_true_eq]
    split_ifs <;> simp_all <;> linarith
  · intro hq
    simp only [analyzeSentiment, findCategory, Bound.leq, SENTIMENT_CATEGORIES_index2,
      decide_eq_true_eq]
    split_ifs <;> simp_all <;> linarith

/-- C9 witness: score -1 classifies as "mean" and score 1 as "neutral" in
the second src/index.ts table. -/
theorem C9_witness :
    analyzeSentiment SENTIMENT_CATEGORIES_index2 (-1) = "mean" ∧
    analyzeSentiment SENTIMENT_CATEGORIES_index2 1 = "neutral" :=
  ⟨(C9_index2 (-1)).2.1 (by norm_num), (C9_index2 1).2.2 (by norm_num)⟩

end SentimentBot

namespace SentimentBot

/-- Example comparative assignment used to witness the averaging claim:
"a" has comparative score 0.4 and "b" has -0.2. -/
def exampleComparative : String → ℚ :=
  fun t => if t = "a" then 2/5 else -(1/5)

/-- C4: for every non-empty sequence of texts, analyzeSentimentScore is the
arithmetic mean of the per-text comparative scores; in particular texts
with comparative scores 0.4 and -0.2 aggregate to 0.1. -/
theorem C4_mean :
    (∀ (comparative : String → ℚ) (texts : List String), texts ≠ [] →
      analyzeSentimentScore comparative texts =
        (texts.map comparative).sum / texts.length) ∧
    analyzeSentimentScore exampleComparative (["a", "b"]) = 1/10 := by
  constructor
  · intro comparative texts h
    rw [analyzeSentimentScore, if_pos (by simpa using List.length_pos.mpr h),
      foldl_add_eq_add_sum, zero_add]
  · have hb : ("b" : String) ≠ "a" := by decide
    norm_num [analyzeSentimentScore, exampleComparative, hb]

/-- C4 witness: the mean formula evaluated on the two-text example. -/
theorem C4_witness :
    analyzeSentimentScore exampleComparative (["a", "b"]) =
      ((["a", "b"]).map exampleComparative).sum / (["a", "b"] : List String).length :=
  C4_mean.1 exampleComparative (["a", "b"]) (by simp)

/-- C5: for the empty input sequence analyzeSentimentScore returns exactly
0, for any comparative assignment, with no division performed. -/
theorem C5_empty : ∀ comparative : String → ℚ, analyzeSentimentScore comparative [] = 0 :=
  fun _ => rfl

/-- C6: the table classifier is total — its result is a label of some table
entry or the designated "neutral" fallback — and whenever the scan
exhausts the table without a match it returns "neutral". -/
theorem C6_total : ∀ (table : List (Bound × String)) (score : ℚ),
    ((∃ e ∈ table, analyzeSentiment table score = e.2) ∨
      analyzeSentiment table score = "neutral") ∧
    (findCategory score table = none → analyzeSentiment table score = "neutral") := by
  intro table score
  constructor
  · cases h : findCategory score table with
    | none => exact Or.inr (by simp [analyzeSentiment, h])
    | some s =>
      obtain ⟨e, he, hs⟩ := findCategory_mem h
      exact Or.inl ⟨e, he, by simp [analyzeSentiment, h, hs]⟩
  · intro h
    simp [analyzeSentiment, h]

/-- C6 witness: at score 1 the second src/index.ts table's scan finds no
entry and the classifier returns "neutral". -/
theorem C6_witness : analyzeSentiment SENTIMENT_CATEGORIES_index2 1 = "neutral" :=
  (C6_total SENTIMENT_CATEGORIES_index2 1).2
    (by norm_num [findCategory, Bound.leq, SENTIMENT_CATEGORIES_index2])

end SentimentBot

namespace SentimentBot

/-- C7: false as stated — the latest composer renders the score with plain
`toFixed(2)`: at score 0 the reply carries "0.00", with no leading sign and
no stripping of trailing zeros. -/
theorem C7_counterexample :
    toFixed2 0 = "0.00" ∧
    generateSentimentResponse 0 0 ("user") 0 =
      responseTemplate (getSentimentEmoji 0) ("user") (getSentimentMessage 0 0) ("0.00")
        (analyzeSentimentBranch 0) (interpolate (getSentimentSuggestion 0 0)) ∧
    ("0.00" : String) ≠ "+0" := by
  have h0 : toFixed2 0 = "0.00" := by
    rw [toFixed2_of_floor 0 0 (by rw [Int.floor_eq_iff]; norm_num),
      if_neg (by norm_num : ¬ ((0:ℚ) < 0))]
    rfl
  refine ⟨h0, ?_, by decide⟩
  rw [generateSentimentResponse, h0]

/-- C7 (amended): formatScore of the first part_001 composer renders with a
leading sign and trailing zeros stripped (+1.50 as "+1.5", -2.00 as "-2",
0 as "+0"); the latest composer instead renders the score as bare
`toFixed(2)` output (1.50, -2.00, 0.00), with no sign and no stripping. -/
theorem C7_formats :
    formatScore (3/2) = "+1.5" ∧ formatScore (-2) = "-2" ∧ formatScore 0 = "+0" ∧
    toFixed2 (3/2) = "1.50" ∧ toFixed2 (-2) = "-2.00" ∧ toFixed2 0 = "0.00" := by
  have h15 : Int.floor (100 * |(3:ℚ)/2| + 1/2) = ((150:ℕ) : ℤ) := by
    rw [Int.floor_eq_iff]
    norm_num [abs_div]
  have h2 : Int.floor (100 * |(-2:ℚ)| + 1/2) = ((200:ℕ) : ℤ) := by
    rw [Int.floor_eq_iff]
    norm_num
  have h00 : Int.floor (100 * |(0:ℚ)| + 1/2) = ((0:ℕ) : ℤ) := by
    rw [Int.floor_eq_iff]
    norm_num
  refine ⟨?_, ?_, ?_, ?_, ?_, ?_⟩
  · rw [formatScore, toFixed2_of_floor (3/2) 150 h15,
      if_pos (by norm_num : ((3:ℚ)/2 ≥ 0)), if_neg (by norm_num : ¬ ((3:ℚ)/2 < 0))]
    rfl
  · rw [formatScore, toFixed2_of_floor (-2) 200 h2,
      if_neg (by norm_num : ¬ ((-2:ℚ) ≥ 0)), if_pos (by norm_num : ((-2:ℚ) < 0))]
    rfl
  · rw [formatScore, toFixed2_of_floor 0 0 h00,
      if_pos (by norm_num : ((0:ℚ) ≥ 0)), if_neg (by norm_num : ¬ ((0:ℚ) < 0))]
    rfl
  · rw [toFixed2_of_floor (3/2) 150 h15, if_neg (by norm_num : ¬ ((3:ℚ)/2 < 0))]
    rfl
  · rw [toFixed2_of_floor (-2) 200 h2, if_pos (by norm_num : ((-2:ℚ) < 0))]
    rfl
  · rw [toFixed2_of_floor 0 0 h00, if_neg (by norm_num : ¬ ((0:ℚ) < 0))]
    rfl

/-- C8: with the random draws fixed at index 0 the composer is
deterministic for identical arguments, and for any two pairs of random
draws the outputs instantiate the same template with identical emoji,
formatted score and category label, differing at most in the message and
suggestion fragments. -/
theorem C8_determinism : ∀ (username : String) (score : ℚ) (rm rs rm2 rs2 : ℕ),
    generateSentimentResponse 0 0 username score =
      generateSentimentResponse 0 0 username score ∧
    ∃ m s m2 s2,
      generateSentimentResponse rm rs username score =
        responseTemplate (getSentimentEmoji score) username m (toFixed2 score)
          (analyzeSentimentBranch score) s ∧
      generateSentimentResponse rm2 rs2 username score =
        responseTemplate (getSentimentEmoji score) username m2 (toFixed2 score)
          (analyzeSentimentBranch score) s2 :=
  fun _u q rm rs rm2 rs2 =>
    ⟨rfl, getSentimentMessage rm q, interpolate (getSentimentSuggestion rs q),
      getSentimentMessage rm2 q, interpolate (getSentimentSuggestion rs2 q), rfl, rfl⟩

/-- C10: at score 0 getSentimentSuggestion returns the whole ten-element
neutralSuggestions array, so the reply interpolates all ten suggestions
comma-joined; for every nonzero score it returns a single element of the
matching pool. -/
theorem C10_suggestion :
    (∀ r : ℕ, getSentimentSuggestion r 0 = Sum.inr neutralSuggestions) ∧
    neutralSuggestions.length = 10 ∧
    (∀ (rm rs : ℕ) (username : String),
      generateSentimentResponse rm rs username 0 =
        responseTemplate (getSentimentEmoji 0) username (getSentimentMessage rm 0) (toFixed2 0)
          (analyzeSentimentBranch 0) (String.intercalate (",") neutralSuggestions)) ∧
    (∀ (r : ℕ) (score : ℚ), score ≠ 0 →
      ∃ s ∈ suggestionPool score, getSentimentSuggestion r score = Sum.inl s) := by
  refine ⟨fun r => by simp [getSentimentSuggestion], rfl, ?_, ?_⟩
  · intro rm rs username
    simp [generateSentimentResponse, getSentimentSuggestion, interpolate]
  · intro r score h
    rw [getSentimentSuggestion_of_ne_zero r h]
    exact ⟨getRandomArrayItem r (suggestionPool score),
      getRandomArrayItem_mem r _ (suggestionPool_ne_nil score), rfl⟩

/-- C10 witness: at score 1 a single element of the matching pool is
returned. -/
theorem C10_witness :
    ∃ s ∈ suggestionPool 1, getSentimentSuggestion 0 1 = Sum.inl s :=
  C10_suggestion.2.2.2 0 1 (by norm_num)

end SentimentBot
